import Mathlib

/-!
Verification of the MagTag clock-maintenance script (src/code.py).

The script derives local wall-clock time from a UTC network time source,
applies the Central-USA DST rule, writes the result to the hardware RTC
once at startup, and then periodically formats the RTC time for display,
retrying the display refresh on a specific transient failure.

The embedding below translates the pure logic of the script:
  - `compute_yearday`  (src lines 12-18)
  - `is_dst`           (src lines 20-40), on top of a model of the
    CircuitPython `time.mktime` / `time.localtime` conversion pair
    (proleptic Gregorian calendar, Unix epoch, `tm_wday` with Monday = 0)
  - `setup_time`       (src lines 50-90), the RTC write
  - the 12-hour formatting and the refresh retry loop of
    `update_display_time` (src lines 133-172), with the sequence of
    refresh outcomes supplied as an explicit list and the sleeps
    recorded as an explicit trace.
-/

namespace MagTag

/-- Leap-year test exactly as on src line 16:
`year % 4 == 0 and (year % 100 != 0 or year % 400 == 0)`. -/
def leap_check (year : Nat) : Bool :=
  year % 4 == 0 && (year % 100 != 0 || year % 400 == 0)

/-- The `month_days` table of src line 14, with the February entry set to 29
when the leap test holds (the functional rendering of the in-place update on
src line 17). -/
def month_days (year : Nat) : List Nat :=
  if leap_check year then [31, 29, 31, 30, 31, 30, 31, 31, 30, 31, 30, 31]
  else [31, 28, 31, 30, 31, 30, 31, 31, 30, 31, 30, 31]

/-- `compute_yearday` of src lines 12-18: `sum(month_days[:month - 1]) + day`. -/
def compute_yearday (year month day : Nat) : Nat :=
  ((month_days year).take (month - 1)).sum + day

/-- Number of days of a calendar year. -/
def daysInYear (year : Nat) : Nat := if leap_check year then 366 else 365

/-- Days in the proleptic Gregorian calendar strictly before January 1 of
`year`, counted from January 1 of year 1. -/
def daysBeforeYear (year : Nat) : Nat :=
  365 * (year - 1) + (year - 1) / 4 - (year - 1) / 100 + (year - 1) / 400

/-- Days from January 1 of year 1 to the Unix epoch (January 1, 1970). -/
def epoch_days : Nat := 719162

/-- Days of `year` strictly before the first of `month`. -/
def daysBeforeMonth (year month : Nat) : Nat :=
  ((month_days year).take (month - 1)).sum

/-- Model of CircuitPython `time.mktime` applied to a 9-tuple
`(year, month, day, hour, minute, second, weekday, yearday, isdst)`:
seconds since the Unix epoch of the given calendar instant.  Like the C
function, it ignores the `weekday`, `yearday` and `isdst` slots.  The device
has no timezone database, so the conversion is pure calendar arithmetic. -/
def mktime (year month day hour minute second weekday yearday isdst : Nat) : Int :=
  86400 * ((daysBeforeYear year : Int) + (daysBeforeMonth year month : Int)
      + (day : Int) - 1 - (epoch_days : Int))
    + 3600 * (hour : Int) + 60 * (minute : Int) + (second : Int)

/-- The fields of the `struct_time` value returned by `time.localtime` that
the script reads (`tm_yday` and `tm_isdst` are never read). -/
structure Tm where
  tm_year : Nat
  tm_mon : Nat
  tm_mday : Nat
  tm_hour : Nat
  tm_min : Nat
  tm_sec : Nat
  tm_wday : Nat
deriving DecidableEq

/-- Splits a day count (days since January 1 of year `y`) into the year it
falls in and the remaining 0-based day-of-year index, by peeling whole years.
The first argument is structural fuel; any fuel of at least the day count is
sufficient. -/
def yearFromDays : Nat → Nat → Nat → Nat × Nat
  | 0, y, d => (y, d)
  | fuel + 1, y, d =>
    if d < daysInYear y then (y, d) else yearFromDays fuel (y + 1) (d - daysInYear y)

/-- Splits a 0-based day-of-year index into a 1-based month number and a
0-based day-of-month index, given the month-length table. -/
def monthFromDoy : List Nat → Nat → Nat × Nat
  | [], doy => (1, doy)
  | len :: rest, doy =>
    if doy < len then (1, doy)
    else
      let mr := monthFromDoy rest (doy - len)
      (mr.1 + 1, mr.2)

/-- Model of CircuitPython `time.localtime`: breaks a seconds-since-epoch
scalar into a calendar/time tuple.  `tm_wday` uses the Monday-is-0 convention
noted on src line 27 (January 1, 1970 was a Thursday, hence the shift by 3). -/
def localtime (t : Int) : Tm :=
  let zd := t / 86400
  let sod := (t % 86400).toNat
  let d0 := (zd + (epoch_days : Int)).toNat
  let yr := yearFromDays (d0 + 1) 1 d0
  let mr := monthFromDoy (month_days yr.1) yr.2
  ⟨yr.1, mr.1, mr.2 + 1, sod / 3600, sod % 3600 / 60, sod % 60, ((zd + 3) % 7).toNat⟩

/-- `time.localtime(march_first).tm_wday` of src lines 26-27. -/
def march_first_weekday (year : Nat) : Nat :=
  (localtime (mktime year 3 1 0 0 0 0 0 0)).tm_wday

/-- `second_sunday` of src lines 29-30: `1 + ((6 - march_first_weekday) % 7) + 7`. -/
def second_sunday_march (year : Nat) : Nat :=
  1 + ((6 - march_first_weekday year) % 7) + 7

/-- `time.localtime(november_first).tm_wday` of src lines 34-35. -/
def november_first_weekday (year : Nat) : Nat :=
  (localtime (mktime year 11 1 0 0 0 0 0 0)).tm_wday

/-- `first_sunday_nov` of src line 36: `1 + ((6 - november_first_weekday) % 7)`. -/
def first_sunday_november (year : Nat) : Nat :=
  1 + ((6 - november_first_weekday year) % 7)

/-- `dst_start` of src line 31: 02:00 on the second Sunday of March. -/
def dst_start (year : Nat) : Int :=
  mktime year 3 (second_sunday_march year) 2 0 0 0 0 0

/-- `dst_end` of src line 37: 02:00 on the first Sunday of November. -/
def dst_end (year : Nat) : Int :=
  mktime year 11 (first_sunday_november year) 2 0 0 0 0 0

/-- `is_dst` of src lines 20-40: `dst_start <= current < dst_end` for the
query instant `(year, month, day, hour, 0, 0)`. -/
def is_dst (year month day hour : Nat) : Bool :=
  decide (dst_start year ≤ mktime year month day hour 0 0 0 0 0 ∧
    mktime year month day hour 0 0 0 0 0 < dst_end year)

/-- The writable fields of `rtc.RTC().datetime` (src lines 80-90). -/
structure RTCState where
  year : Nat
  mon : Nat
  mday : Nat
  hour : Nat
  min : Nat
  sec : Nat
  wday : Nat
  yday : Nat
  isdst : Int
deriving DecidableEq

/-- `setup_time` of src lines 50-90, with the NTP tuple
`(year, month, day, hour, minute, second, weekday)` passed in as arguments
(the network fetch itself is an external collaborator).  Selects the UTC
offset from `is_dst` on the UTC components, shifts the epoch scalar, breaks
it back into a calendar tuple, and returns the 9 fields written to the RTC;
`isdst` is written as `-1` (src line 89, "not used"). -/
def setup_time (year month day hour minute second weekday : Nat) : RTCState :=
  let tz_offset : Int := if is_dst year month day hour then -5 * 3600 else -6 * 3600
  let adjusted_secs := mktime year month day hour minute second weekday 0 0 + tz_offset
  let adjusted_time := localtime adjusted_secs
  { year := adjusted_time.tm_year
    mon := adjusted_time.tm_mon
    mday := adjusted_time.tm_mday
    hour := adjusted_time.tm_hour
    min := adjusted_time.tm_min
    sec := adjusted_time.tm_sec
    wday := adjusted_time.tm_wday
    yday := compute_yearday adjusted_time.tm_year adjusted_time.tm_mon adjusted_time.tm_mday
    isdst := -1 }

/-- The 24-hour to 12-hour conversion of src lines 145-156, returning the
12-hour figure and the meridiem string. -/
def to_12_hour (hours_24 : Nat) : Nat × String :=
  if hours_24 == 0 then (12, "AM")
  else if hours_24 < 12 then (hours_24, "AM")
  else if hours_24 == 12 then (12, "PM")
  else (hours_24 - 12, "PM")

/-- Python `"{0:02d}".format(n)` for a natural number: zero-pad to width 2. -/
def format_02d (n : Nat) : String :=
  if n < 10 then "0" ++ toString n else toString n

/-- `current_time_str` of src line 158: `"HH:MM AM|PM"`. -/
def current_time_string (hours_24 minutes : Nat) : String :=
  let hm := to_12_hour hours_24
  format_02d hm.1 ++ ":" ++ format_02d minutes ++ " " ++ hm.2

/-- Outcome of one `display.refresh()` attempt: success, or a raised
`RuntimeError` carrying its message (src lines 164-167). -/
inductive RefreshOutcome where
  | success : RefreshOutcome
  | runtimeError (msg : String) : RefreshOutcome
deriving DecidableEq

/-- How the refresh loop of src lines 162-172 ends: normal return, an error
re-raised out of the loop, or the supplied outcome list running out while the
loop is still pending (the real loop is unbounded). -/
inductive LoopExit where
  | returned : LoopExit
  | raised (msg : String) : LoopExit
  | pending : LoopExit
deriving DecidableEq

/-- The substring the handler on src line 168 tests for. -/
def transient_msg : String := "Refresh too soon"

/-- Python's `needle in hay` substring test on character lists. -/
def contains_substring (hay needle : List Char) : Bool :=
  needle.isPrefixOf hay ||
    match hay with
    | [] => false
    | _ :: tl => contains_substring tl needle

/-- The `while not refreshed` retry loop of src lines 162-172, driven by an
explicit list of refresh outcomes (one per attempt).  Returns the trace of
sleep durations in order (each `time.sleep(5)` of src line 170 recorded as a
5) together with how the loop ended. -/
def refresh_loop : List RefreshOutcome → List Nat × LoopExit
  | [] => ([], LoopExit.pending)
  | RefreshOutcome.success :: _ => ([], LoopExit.returned)
  | RefreshOutcome.runtimeError msg :: rest =>
    if contains_substring msg.toList transient_msg.toList then
      let r := refresh_loop rest
      (5 :: r.1, r.2)
    else ([], LoopExit.raised msg)

/-- The mutable state the display driver can see: the RTC and the time
label's text (the only software-owned display state). -/
structure SysState where
  rtc : RTCState
  label_text : String
deriving DecidableEq

/-- `update_display_time` of src lines 133-172: reads hour and minute from
the RTC, formats the label text, and runs the refresh retry loop.  Returns
the new state together with the sleep trace and loop exit. -/
def update_display_time (st : SysState) (outcomes : List RefreshOutcome) :
    SysState × List Nat × LoopExit :=
  let hours_24 := st.rtc.hour
  let minutes := st.rtc.min
  let r := refresh_loop outcomes
  ({ st with label_text := "Time: " ++ current_time_string hours_24 minutes }, r.1, r.2)

/-- The `while True` loop of src lines 187-189, one entry of the outcome-list
list per iteration; stops early when an iteration raises (or its outcomes run
out), since an exception propagates out of the loop. -/
def main_loop : SysState → List (List RefreshOutcome) → SysState
  | st, [] => st
  | st, o :: os =>
    let r := update_display_time st o
    match r.2.2 with
    | LoopExit.returned => main_loop r.1 os
    | _ => r.1

/-- Written from the spec's conversion table, for comparison with
`to_12_hour`: hour 0 maps to 12, hours 1-11 to themselves, hour 12 to 12,
hours 13-23 to hour minus 12. -/
def spec_hour_12 (h : Nat) : Nat :=
  if h = 0 then 12 else if h ≤ 11 then h else if h = 12 then 12 else h - 12

/-- Written from the spec's conversion table: AM strictly before hour 12,
PM from hour 12 on. -/
def spec_meridiem (h : Nat) : String := if h < 12 then "AM" else "PM"

/-! Helper lemmas about the calendar model. -/

lemma month_days_sum (y : Nat) : (month_days y).sum = daysInYear y := by
  unfold month_days daysInYear
  cases h : leap_check y <;> simp

lemma daysInYear_ge (y : Nat) : 365 ≤ daysInYear y := by
  unfold daysInYear
  cases h : leap_check y <;> simp

set_option maxHeartbeats 1600000 in
lemma daysBeforeYear_succ (y : Nat) (hy : 1 ≤ y) :
    daysBeforeYear (y + 1) = daysBeforeYear y + daysInYear y := by
  unfold daysBeforeYear daysInYear
  by_cases h : leap_check y = true
  · rw [if_pos h]
    simp only [leap_check, Bool.and_eq_true, beq_iff_eq, Bool.or_eq_true, bne_iff_ne,
      ne_eq] at h
    omega
  · rw [if_neg h]
    simp only [leap_check, Bool.and_eq_true, beq_iff_eq, Bool.or_eq_true, bne_iff_ne,
      ne_eq] at h
    omega

lemma yearFromDays_spec : ∀ (fuel y d : Nat), 1 ≤ y → d ≤ fuel →
    daysBeforeYear (yearFromDays fuel y d).1 + (yearFromDays fuel y d).2 =
        daysBeforeYear y + d ∧
      (yearFromDays fuel y d).2 < daysInYear (yearFromDays fuel y d).1 ∧
      1 ≤ (yearFromDays fuel y d).1 := by
  intro fuel
  induction fuel with
  | zero =>
    intro y d hy hd
    have hd0 : d = 0 := Nat.le_zero.mp hd
    subst hd0
    exact ⟨rfl, Nat.lt_of_lt_of_le (show 0 < 365 by norm_num) (daysInYear_ge y), hy⟩
  | succ fuel ih =>
    intro y d hy hd
    by_cases h : d < daysInYear y
    · rw [show yearFromDays (fuel + 1) y d = (y, d) by simp [yearFromDays, h]]
      exact ⟨rfl, h, hy⟩
    · rw [show yearFromDays (fuel + 1) y d =
          yearFromDays fuel (y + 1) (d - daysInYear y) by simp [yearFromDays, h]]
      have hge := daysInYear_ge y
      have hrec := ih (y + 1) (d - daysInYear y) (by omega) (by omega)
      have hstep := daysBeforeYear_succ y hy
      exact ⟨by omega, hrec.2.1, by omega⟩

lemma monthFromDoy_spec : ∀ (l : List Nat) (doy : Nat), doy < l.sum →
    1 ≤ (monthFromDoy l doy).1 ∧
      (l.take ((monthFromDoy l doy).1 - 1)).sum + (monthFromDoy l doy).2 = doy := by
  intro l
  induction l with
  | nil =>
    intro doy h
    simp at h
  | cons len rest ih =>
    intro doy h
    by_cases hl : doy < len
    · simp [monthFromDoy, hl]
    · simp only [monthFromDoy, if_neg hl]
      have h2 : doy - len < rest.sum := by
        simp only [List.sum_cons] at h
        omega
      have hrec := ih (doy - len) h2
      refine ⟨by omega, ?_⟩
      obtain ⟨k, hk⟩ : ∃ k, (monthFromDoy rest (doy - len)).1 = k + 1 :=
        ⟨(monthFromDoy rest (doy - len)).1 - 1, by omega⟩
      rw [hk]
      simp only [Nat.add_sub_cancel, List.take_succ_cons, List.sum_cons]
      rw [hk] at hrec
      simp only [Nat.add_sub_cancel] at hrec
      omega

lemma tm_wday_lt (t : Int) : (localtime t).tm_wday < 7 := by
  have h1 := Int.emod_nonneg (t / 86400 + 3) (by norm_num : (7 : Int) ≠ 0)
  have h2 := Int.emod_lt_of_pos (t / 86400 + 3) (by norm_num : (0 : Int) < 7)
  simp only [localtime]
  omega

lemma daysBeforeYear_one : daysBeforeYear 1 = 0 := by decide

/-- The conversion pair is a right inverse: rebuilding the epoch scalar from
the calendar breakdown of `t` gives back `t`, for every scalar the model
covers (at or after January 1 of year 1). -/
lemma mktime_localtime (t : Int) (ht : 0 ≤ t + 86400 * (epoch_days : Int)) :
    mktime (localtime t).tm_year (localtime t).tm_mon (localtime t).tm_mday
      (localtime t).tm_hour (localtime t).tm_min (localtime t).tm_sec 0 0 0 = t := by
  have hdm := Int.ediv_add_emod t 86400
  have h1 := Int.emod_nonneg t (by norm_num : (86400 : Int) ≠ 0)
  have h2 := Int.emod_lt_of_pos t (by norm_num : (0 : Int) < 86400)
  have hzdE : 0 ≤ t / 86400 + (epoch_days : Int) := by omega
  have hd0E := Int.toNat_of_nonneg hzdE
  have hsodE := Int.toNat_of_nonneg h1
  have hyr := yearFromDays_spec ((t / 86400 + (epoch_days : Int)).toNat + 1) 1
    ((t / 86400 + (epoch_days : Int)).toNat) (le_refl 1) (by omega)
  rw [daysBeforeYear_one] at hyr
  have hsum :
      (yearFromDays ((t / 86400 + (epoch_days : Int)).toNat + 1) 1
          ((t / 86400 + (epoch_days : Int)).toNat)).2 <
        (month_days
          (yearFromDays ((t / 86400 + (epoch_days : Int)).toNat + 1) 1
            ((t / 86400 + (epoch_days : Int)).toNat)).1).sum := by
    rw [month_days_sum]
    exact hyr.2.1
  have hmr := monthFromDoy_spec _ _ hsum
  have hsodarith : 3600 * ((t % 86400).toNat / 3600) +
      60 * ((t % 86400).toNat % 3600 / 60) + (t % 86400).toNat % 60 =
      (t % 86400).toNat := by omega
  simp only [localtime, mktime, daysBeforeMonth]
  omega

lemma dbm_table (y : Nat) : ∃ f, (f = 28 ∨ f = 29) ∧
    daysBeforeMonth y 1 = 0 ∧ daysBeforeMonth y 2 = 31 ∧ daysBeforeMonth y 3 = 31 + f ∧
    daysBeforeMonth y 4 = 62 + f ∧ daysBeforeMonth y 5 = 92 + f ∧
    daysBeforeMonth y 6 = 123 + f ∧ daysBeforeMonth y 7 = 153 + f ∧
    daysBeforeMonth y 8 = 184 + f ∧ daysBeforeMonth y 9 = 215 + f ∧
    daysBeforeMonth y 10 = 245 + f ∧ daysBeforeMonth y 11 = 276 + f ∧
    daysBeforeMonth y 12 = 306 + f := by
  by_cases h : leap_check y = true
  · refine ⟨29, Or.inr rfl, ?_⟩
    simp only [daysBeforeMonth, month_days, h, if_true]
    decide
  · refine ⟨28, Or.inl rfl, ?_⟩
    simp only [daysBeforeMonth, month_days, h, if_false]
    decide

/-! Claim theorems. -/

/-- C7: for every date, `compute_yearday` is the sum of the lengths of the
months strictly before the given month (February counted as 29 exactly when
the leap rule holds, through `month_days`) plus the day; it returns 1 on
January 1 of every year, and on December 31 it returns 366 in a leap year
and 365 otherwise. -/
theorem compute_yearday_spec (y m d : Nat) :
    compute_yearday y m d = ((month_days y).take (m - 1)).sum + d ∧
    compute_yearday y 1 1 = 1 ∧
    compute_yearday y 12 31 = (if leap_check y then 366 else 365) := by
  refine ⟨rfl, rfl, ?_⟩
  by_cases h : leap_check y = true <;>
    simp only [compute_yearday, month_days, h, if_true, if_false] <;> decide

/-- C8: the leap-year test used by the calendar arithmetic holds exactly for
years divisible by 4 and (not divisible by 100, or divisible by 400); in
particular it is true for 2000 and 2024 and false for 1900 and 2023. -/
theorem leap_check_spec (y : Nat) :
    (leap_check y = true ↔ (4 ∣ y ∧ (¬(100 ∣ y) ∨ 400 ∣ y))) ∧
    leap_check 2000 = true ∧ leap_check 2024 = true ∧
    leap_check 1900 = false ∧ leap_check 2023 = false := by
  refine ⟨?_, by decide, by decide, by decide, by decide⟩
  simp only [leap_check, Bool.and_eq_true, beq_iff_eq, Bool.or_eq_true, bne_iff_ne, ne_eq]
  omega

set_option maxRecDepth 10000 in
/-- C5: for every hour 0-23 and minute 0-59 the formatted string follows the
12-hour table (0 maps to 12 AM, 1-11 to the hour AM, 12 to 12 PM, 13-23 to
hour minus 12 PM) with zero-padded two-digit hour and minute, so it always
has the 8-character shape HH:MM AM|PM; hour 13 minute 5 gives "01:05 PM". -/
theorem time_format_spec :
    (∀ h, h < 24 → ∀ m, m < 60 →
      current_time_string h m =
        format_02d (spec_hour_12 h) ++ ":" ++ format_02d m ++ " " ++ spec_meridiem h ∧
      (current_time_string h m).length = 8) ∧
    current_time_string 13 5 = "01:05 PM" := by
  constructor
  · decide
  · decide

/-- Witness for C5 at hour 13, minute 5. -/
theorem time_format_spec_witness :
    13 < 24 ∧ 5 < 60 ∧
    (current_time_string 13 5 =
        format_02d (spec_hour_12 13) ++ ":" ++ format_02d 5 ++ " " ++ spec_meridiem 13 ∧
      (current_time_string 13 5).length = 8) :=
  ⟨by decide, by decide, time_format_spec.1 13 (by decide) 5 (by decide)⟩

/-- C4: the refresh driver is the Pending/Succeeded/RetryWait machine: a
successful attempt exits the loop with no sleep; an attempt raising a
RuntimeError whose message contains "Refresh too soon" causes exactly one
5-second sleep and then a re-attempt, with no bound on the number of retries
(any number n of transient failures followed by a success yields n sleeps
and a normal return); any other error propagates immediately with no sleep;
two transient failures then a success yield exactly two 5-second sleeps and
a normal return. -/
theorem refresh_loop_retry_spec (rest : List RefreshOutcome) (tmsg fmsg : String)
    (n : Nat)
    (htrans : contains_substring tmsg.toList transient_msg.toList = true)
    (hfatal : contains_substring fmsg.toList transient_msg.toList = false) :
    refresh_loop (RefreshOutcome.success :: rest) = ([], LoopExit.returned) ∧
    refresh_loop (RefreshOutcome.runtimeError tmsg :: rest) =
      (5 :: (refresh_loop rest).1, (refresh_loop rest).2) ∧
    refresh_loop (RefreshOutcome.runtimeError fmsg :: rest) =
      ([], LoopExit.raised fmsg) ∧
    refresh_loop (List.replicate n (RefreshOutcome.runtimeError transient_msg) ++
        [RefreshOutcome.success]) = (List.replicate n 5, LoopExit.returned) ∧
    refresh_loop [RefreshOutcome.runtimeError transient_msg,
        RefreshOutcome.runtimeError transient_msg, RefreshOutcome.success] =
      ([5, 5], LoopExit.returned) := by
  have hself : contains_substring transient_msg.data transient_msg.data = true := by
    decide
  have htrans2 : contains_substring tmsg.data transient_msg.data = true := htrans
  have hfatal2 : contains_substring fmsg.data transient_msg.data = false := hfatal
  refine ⟨rfl, ?_, ?_, ?_, by decide⟩
  · simp [refresh_loop, htrans2]
  · simp [refresh_loop, hfatal2]
  · induction n with
    | zero => decide
    | succ k ih =>
      have hselfT : contains_substring transient_msg.toList transient_msg.toList = true :=
        hself
      simp only [List.replicate_succ, List.cons_append, refresh_loop, hselfT, if_true,
        List.append_eq, ih]

/-- Witness for C4: two transient failures then a success, with the fatal
branch exercised on a distinct message. -/
theorem refresh_loop_retry_spec_witness :
    contains_substring ("Refresh too soon, display busy").toList transient_msg.toList
        = true ∧
    contains_substring ("display disconnected").toList transient_msg.toList = false ∧
    (refresh_loop (RefreshOutcome.success :: []) = ([], LoopExit.returned) ∧
      refresh_loop (RefreshOutcome.runtimeError "Refresh too soon, display busy" :: []) =
        (5 :: (refresh_loop []).1, (refresh_loop []).2) ∧
      refresh_loop (RefreshOutcome.runtimeError "display disconnected" :: []) =
        ([], LoopExit.raised "display disconnected") ∧
      refresh_loop (List.replicate 2 (RefreshOutcome.runtimeError transient_msg) ++
          [RefreshOutcome.success]) = (List.replicate 2 5, LoopExit.returned) ∧
      refresh_loop [RefreshOutcome.runtimeError transient_msg,
          RefreshOutcome.runtimeError transient_msg, RefreshOutcome.success] =
        ([5, 5], LoopExit.returned)) :=
  ⟨by decide, by decide,
    refresh_loop_retry_spec [] "Refresh too soon, display busy" "display disconnected" 2
      (by decide) (by decide)⟩

/-- C9: the display refresh driver never writes the hardware clock: one
invocation leaves the RTC fields of the state unchanged for every starting
state and every sequence of refresh outcomes, and hence over the whole
periodic loop the RTC keeps exactly the value the clock synchronizer wrote
at startup. -/
theorem display_rtc_frame (st : SysState) (outcomes : List RefreshOutcome)
    (plan : List (List RefreshOutcome)) :
    (update_display_time st outcomes).1.rtc = st.rtc ∧
    (main_loop st plan).rtc = st.rtc := by
  refine ⟨rfl, ?_⟩
  induction plan generalizing st with
  | nil => rfl
  | cons o os ih =>
    simp only [main_loop]
    split
    · exact (ih _).trans rfl
    · rfl

/-- C2: for every UTC input, `setup_time` writes the RTC with the DST flag
field set to the "not applicable" marker -1, the yearday field equal to
`compute_yearday` of the written (offset-adjusted) date, and every field
taken from the calendar breakdown of the UTC epoch scalar shifted by -5
hours (-18000 s) when `is_dst` holds on the UTC components and by -6 hours
(-21600 s) otherwise. -/
theorem setup_time_fields_spec (y m d h mi s w : Nat) :
    (setup_time y m d h mi s w).isdst = -1 ∧
    (setup_time y m d h mi s w).yday =
      compute_yearday (setup_time y m d h mi s w).year (setup_time y m d h mi s w).mon
        (setup_time y m d h mi s w).mday ∧
    setup_time y m d h mi s w =
      { year := (localtime (mktime y m d h mi s w 0 0 +
            (if is_dst y m d h then (-18000 : Int) else -21600))).tm_year
        mon := (localtime (mktime y m d h mi s w 0 0 +
            (if is_dst y m d h then (-18000 : Int) else -21600))).tm_mon
        mday := (localtime (mktime y m d h mi s w 0 0 +
            (if is_dst y m d h then (-18000 : Int) else -21600))).tm_mday
        hour := (localtime (mktime y m d h mi s w 0 0 +
            (if is_dst y m d h then (-18000 : Int) else -21600))).tm_hour
        min := (localtime (mktime y m d h mi s w 0 0 +
            (if is_dst y m d h then (-18000 : Int) else -21600))).tm_min
        sec := (localtime (mktime y m d h mi s w 0 0 +
            (if is_dst y m d h then (-18000 : Int) else -21600))).tm_sec
        wday := (localtime (mktime y m d h mi s w 0 0 +
            (if is_dst y m d h then (-18000 : Int) else -21600))).tm_wday
        yday := compute_yearday
          (localtime (mktime y m d h mi s w 0 0 +
            (if is_dst y m d h then (-18000 : Int) else -21600))).tm_year
          (localtime (mktime y m d h mi s w 0 0 +
            (if is_dst y m d h then (-18000 : Int) else -21600))).tm_mon
          (localtime (mktime y m d h mi s w 0 0 +
            (if is_dst y m d h then (-18000 : Int) else -21600))).tm_mday
        isdst := -1 } := by
  refine ⟨rfl, rfl, ?_⟩
  by_cases hdst : is_dst y m d h = true <;>
    simp only [setup_time, hdst, if_true, if_false, Bool.false_eq_true] <;> rfl

set_option maxRecDepth 20000 in
/-- C3: the July scenario: UTC (2024, 7, 15, 18, 30, 0) is DST-active, so the
offset -5 h applies, the RTC is written with local 13:30 (hour field 13,
yearday 197), and the display pipeline renders "Time: 01:30 PM"; the January
scenario: UTC (2024, 1, 15, 18, 30, 0) is DST-inactive, the offset -6 h
applies, the RTC hour field is 12, and the display shows "Time: 12:30 PM". -/
theorem end_to_end_scenarios :
    is_dst 2024 7 15 18 = true ∧
    setup_time 2024 7 15 18 30 0 0 =
      { year := 2024, mon := 7, mday := 15, hour := 13, min := 30, sec := 0, wday := 0,
        yday := 197, isdst := -1 } ∧
    (update_display_time
        { rtc := setup_time 2024 7 15 18 30 0 0, label_text := "Time: --:--" }
        [RefreshOutcome.success]).1.label_text = "Time: 01:30 PM" ∧
    is_dst 2024 1 15 18 = false ∧
    setup_time 2024 1 15 18 30 0 0 =
      { year := 2024, mon := 1, mday := 15, hour := 12, min := 30, sec := 0, wday := 0,
        yday := 15, isdst := -1 } ∧
    (update_display_time
        { rtc := setup_time 2024 1 15 18 30 0 0, label_text := "Time: --:--" }
        [RefreshOutcome.success]).1.label_text = "Time: 12:30 PM" :=
  ⟨by decide, by decide, by decide, by decide, by decide, by decide⟩

/-- C6: for every UTC breakdown and either of the two fixed offsets, turning
the breakdown into an epoch scalar, adding the offset, breaking the result
back into a calendar tuple, and rebuilding a scalar from that tuple with the
inverse offset reproduces the original instant exactly, for every instant
the calendar model covers; month/day/year rollover is absorbed by the scalar
round trip. -/
theorem utc_local_roundtrip (y m d h mi s : Nat) (off : Int)
    (hoff : off = -5 * 3600 ∨ off = -6 * 3600)
    (hmodel : 0 ≤ mktime y m d h mi s 0 0 0 + off + 86400 * (epoch_days : Int)) :
    mktime (localtime (mktime y m d h mi s 0 0 0 + off)).tm_year
        (localtime (mktime y m d h mi s 0 0 0 + off)).tm_mon
        (localtime (mktime y m d h mi s 0 0 0 + off)).tm_mday
        (localtime (mktime y m d h mi s 0 0 0 + off)).tm_hour
        (localtime (mktime y m d h mi s 0 0 0 + off)).tm_min
        (localtime (mktime y m d h mi s 0 0 0 + off)).tm_sec 0 0 0 - off =
      mktime y m d h mi s 0 0 0 := by
  have hm := mktime_localtime (mktime y m d h mi s 0 0 0 + off) hmodel
  omega

/-- Witness for C6 at UTC (2024, 7, 15, 18, 30, 0) with the DST offset. -/
theorem utc_local_roundtrip_witness :
    ((-18000 : Int) = -5 * 3600 ∨ (-18000 : Int) = -6 * 3600) ∧
    0 ≤ mktime 2024 7 15 18 30 0 0 0 0 + -18000 + 86400 * (epoch_days : Int) ∧
    mktime (localtime (mktime 2024 7 15 18 30 0 0 0 0 + -18000)).tm_year
        (localtime (mktime 2024 7 15 18 30 0 0 0 0 + -18000)).tm_mon
        (localtime (mktime 2024 7 15 18 30 0 0 0 0 + -18000)).tm_mday
        (localtime (mktime 2024 7 15 18 30 0 0 0 0 + -18000)).tm_hour
        (localtime (mktime 2024 7 15 18 30 0 0 0 0 + -18000)).tm_min
        (localtime (mktime 2024 7 15 18 30 0 0 0 0 + -18000)).tm_sec 0 0 0 - -18000 =
      mktime 2024 7 15 18 30 0 0 0 0 :=
  ⟨Or.inl (by decide), by decide,
    utc_local_roundtrip 2024 7 15 18 30 0 (-18000) (Or.inl (by decide)) (by decide)⟩

set_option maxHeartbeats 800000 in
/-- C1: for every year of the model, `is_dst` holds exactly when the query
instant lies in the half-open window from 02:00 on the second Sunday of
March (day `1 + ((6 - weekday_of_March_1) % 7) + 7`) to 02:00 on the first
Sunday of November (day `1 + ((6 - weekday_of_November_1) % 7)`); the start
boundary instant is DST, one hour before it is not, the end boundary instant
is not DST, and one hour before the end still is. -/
theorem is_dst_window_spec (y m d h : Nat) (hy : 1 ≤ y) :
    (is_dst y m d h = true ↔
      dst_start y ≤ mktime y m d h 0 0 0 0 0 ∧
        mktime y m d h 0 0 0 0 0 < dst_end y) ∧
    dst_start y = mktime y 3
      (1 + ((6 - (localtime (mktime y 3 1 0 0 0 0 0 0)).tm_wday) % 7) + 7) 2 0 0 0 0 0 ∧
    dst_end y = mktime y 11
      (1 + ((6 - (localtime (mktime y 11 1 0 0 0 0 0 0)).tm_wday) % 7)) 2 0 0 0 0 0 ∧
    is_dst y 3 (second_sunday_march y) 2 = true ∧
    is_dst y 3 (second_sunday_march y) 1 = false ∧
    is_dst y 11 (first_sunday_november y) 2 = false ∧
    is_dst y 11 (first_sunday_november y) 1 = true := by
  obtain ⟨f, hf, t1, t2, t3, t4, t5, t6, t7, t8, t9, t10, t11, t12⟩ := dbm_table y
  have hw3 := tm_wday_lt (mktime y 3 1 0 0 0 0 0 0)
  have hw11 := tm_wday_lt (mktime y 11 1 0 0 0 0 0 0)
  simp only [mktime] at hw3 hw11
  refine ⟨by simp [is_dst], rfl, rfl, ?_, ?_, ?_, ?_⟩
  all_goals
    simp only [is_dst, dst_start, dst_end, second_sunday_march, first_sunday_november,
      march_first_weekday, november_first_weekday, mktime, decide_eq_true_eq,
      decide_eq_false_iff_not]
    omega

/-- Witness for C1 at year 2024. -/
theorem is_dst_window_spec_witness :
    1 ≤ 2024 ∧
    ((is_dst 2024 7 15 18 = true ↔
      dst_start 2024 ≤ mktime 2024 7 15 18 0 0 0 0 0 ∧
        mktime 2024 7 15 18 0 0 0 0 0 < dst_end 2024) ∧
    dst_start 2024 = mktime 2024 3
      (1 + ((6 - (localtime (mktime 2024 3 1 0 0 0 0 0 0)).tm_wday) % 7) + 7)
      2 0 0 0 0 0 ∧
    dst_end 2024 = mktime 2024 11
      (1 + ((6 - (localtime (mktime 2024 11 1 0 0 0 0 0 0)).tm_wday) % 7))
      2 0 0 0 0 0 ∧
    is_dst 2024 3 (second_sunday_march 2024) 2 = true ∧
    is_dst 2024 3 (second_sunday_march 2024) 1 = false ∧
    is_dst 2024 11 (first_sunday_november 2024) 2 = false ∧
    is_dst 2024 11 (first_sunday_november 2024) 1 = true) :=
  ⟨by decide, is_dst_window_spec 2024 7 15 18 (by decide)⟩

set_option maxHeartbeats 1600000 in
/-- C10: for every model year, with a day in the 1-31 range and an hour in
the 0-23 range, `is_dst` is true throughout the months April to October and
false throughout December, January and February; only March and November can
depend on the day and hour. -/
theorem is_dst_month_bands (y m d h : Nat) (hy : 1 ≤ y) (hd1 : 1 ≤ d) (hd2 : d ≤ 31)
    (hh : h ≤ 23) :
    (4 ≤ m → m ≤ 10 → is_dst y m d h = true) ∧
    ((m = 12 ∨ m = 1 ∨ m = 2) → is_dst y m d h = false) := by
  obtain ⟨f, hf, t1, t2, t3, t4, t5, t6, t7, t8, t9, t10, t11, t12⟩ := dbm_table y
  have hw3 := tm_wday_lt (mktime y 3 1 0 0 0 0 0 0)
  have hw11 := tm_wday_lt (mktime y 11 1 0 0 0 0 0 0)
  simp only [mktime] at hw3 hw11
  constructor
  · intro h4 h10
    simp only [is_dst, dst_start, dst_end, second_sunday_march, first_sunday_november,
      march_first_weekday, november_first_weekday, mktime, decide_eq_true_eq]
    interval_cases m <;> omega
  · intro hm
    simp only [is_dst, dst_start, dst_end, second_sunday_march, first_sunday_november,
      march_first_weekday, november_first_weekday, mktime, decide_eq_false_iff_not]
    rcases hm with rfl | rfl | rfl <;> omega

/-- Witness for C10 at July 15, 18:00, year 2024. -/
theorem is_dst_month_bands_witness :
    1 ≤ 2024 ∧ 1 ≤ 15 ∧ 15 ≤ 31 ∧ 18 ≤ 23 ∧
    ((4 ≤ 7 → 7 ≤ 10 → is_dst 2024 7 15 18 = true) ∧
      ((7 = 12 ∨ 7 = 1 ∨ 7 = 2) → is_dst 2024 7 15 18 = false)) :=
  ⟨by decide, by decide, by decide, by decide,
    is_dst_month_bands 2024 7 15 18 (by decide) (by decide) (by decide) (by decide)⟩

end MagTag
